import Mathlib

/-!
Shallow embedding of the bounded tool-orchestration engine of the
RAG chatbot backend (`backend/ai_generator.py`), together with the
tool-registry dispatch contract, and proofs of its specified properties.

The LLM completion service is modelled as a stream `llm : Nat → Response`
giving the completion returned by the i-th `messages.create` call of one
`generate_response` invocation; the dispatcher (`tool_manager`) is a
function from a tool name and keyword arguments to the result string.
`generateResponse` returns a trace: every request issued, every tool
dispatch performed (in order), the number of dispatch rounds, and the
final answer string.
-/

namespace RagChatbot

/-- Keyword arguments of a tool call (`block.input`, a Python dict passed
as `**kwargs`), modelled as an ordered association list. -/
abbrev ToolInput := List (String × String)

/-- A content block of a completion: a `text` block (has a `.text`
attribute) or a `tool_use` block (has `.type = "tool_use"`, a tool
name, a call identifier and structured input). -/
inductive ContentBlock : Type
  | text (s : String)
  | toolUse (name : String) (id : String) (input : ToolInput)
deriving DecidableEq, Repr

/-- A `tool_result` dict built by `_execute_tool_calls`:
`{"type": "tool_result", "tool_use_id": ..., "content": ...}`. -/
structure ToolResult : Type where
  tool_use_id : String
  content : String
deriving DecidableEq, Repr

/-- A completion returned by the LLM service: stop condition plus an
ordered sequence of content blocks. -/
structure Response : Type where
  stop_reason : String
  content : List ContentBlock
deriving DecidableEq, Repr

/-- The content of a conversation message: the raw query text (initial
user message), a completion's full block list (assistant message), or a
batch of tool results (follow-up user message). -/
inductive MessageContent : Type
  | text (s : String)
  | blocks (bs : List ContentBlock)
  | toolResults (rs : List ToolResult)
deriving DecidableEq, Repr

/-- A conversation message: `{"role": ..., "content": ...}`. -/
structure Message : Type where
  role : String
  content : MessageContent
deriving DecidableEq, Repr

/-- A tool definition handed to the LLM (name, description, schema). -/
structure ToolDefinition : Type where
  name : String
  description : String
  input_schema : String
deriving DecidableEq, Repr

/-- One request to the LLM completion service: the keyword arguments of
`self.client.messages.create(**api_params)`.  `tools`/`tool_choice` are
`none` when the corresponding keys are absent from `api_params`. -/
structure Request : Type where
  model : String
  temperature : Nat
  max_tokens : Nat
  messages : List Message
  system : String
  tools : Option (List ToolDefinition)
  tool_choice : Option String
deriving DecidableEq, Repr

/-- The dispatcher: `tool_manager.execute_tool(block.name, **block.input)`. -/
abbrev ExecuteTool := String → ToolInput → String

/-- The constant `AIGenerator.MAX_TOOL_ROUNDS`. -/
def MAX_TOOL_ROUNDS : Nat := 2

/-- The static instruction prompt `AIGenerator.SYSTEM_PROMPT`; its exact
text is irrelevant to the control flow, only that it is one fixed string. -/
def SYSTEM_PROMPT : String :=
  " You are an AI assistant specialized in course materials and educational content with access to two tools:\n\n1. **search_course_content** — Search within course lesson text for specific topics, concepts, or details.\n2. **get_course_outline** — Retrieve a course title, link, and full lesson list.\n"

/-- The fallback string returned when the final completion has no text
block (`ai_generator.py` line 110). -/
def FALLBACK_MESSAGE : String :=
  "I wasn't able to complete my analysis. Please try rephrasing your question."

/-- Build the system content (`ai_generator.py` lines 69-73): the fixed
prompt, suffixed with the conversation history only when the history is
truthy (present and non-empty — Python string truthiness). -/
def systemContent (conversation_history : Option String) : String :=
  match conversation_history with
  | some h =>
      if h = "" then SYSTEM_PROMPT
      else SYSTEM_PROMPT ++ "\n\nPrevious conversation:\n" ++ h
  | none => SYSTEM_PROMPT

/-- Python truthiness of the `tools` argument: a list is truthy iff it is
present and non-empty (`if tools:` at line 84). -/
def toolsTruthy : Option (List ToolDefinition) → Bool
  | some (_ :: _) => true
  | _ => false

/-- Assemble `api_params` for one `messages.create` call.  The base
params fix `temperature = 0` and `max_tokens = 800` (lines 44-48);
`tools` and `tool_choice = {"type": "auto"}` are added only when the
`tools` argument is truthy (lines 84-86). -/
def mkRequest (model : String) (system : String)
    (tools : Option (List ToolDefinition)) (messages : List Message) :
    Request :=
  { model := model
    temperature := 0
    max_tokens := 800
    messages := messages
    system := system
    tools := if toolsTruthy tools then tools else none
    tool_choice := if toolsTruthy tools then some "auto" else none }

/-- The method `AIGenerator._execute_tool_calls`: for every `tool_use` block of the
completion's content, in order, call the dispatcher and collect one
`tool_result` dict carrying that block's call id and the returned
string. -/
def executeToolCalls (tm : ExecuteTool) : List ContentBlock → List ToolResult
  | [] => []
  | ContentBlock.toolUse name id input :: rest =>
      { tool_use_id := id, content := tm name input } :: executeToolCalls tm rest
  | ContentBlock.text _ :: rest => executeToolCalls tm rest

/-- The (name, kwargs) pairs of the `tool_use` blocks of a block list, in
order: the `execute_tool` invocations dispatching that list performs. -/
def toolCallsOf : List ContentBlock → List (String × ToolInput)
  | [] => []
  | ContentBlock.toolUse name _ input :: rest => (name, input) :: toolCallsOf rest
  | ContentBlock.text _ :: rest => toolCallsOf rest

/-- Extract the answer from the final completion (lines 107-110): return
the text of the first block having a `text` attribute, or the fallback
message when no block does. -/
def extractText : List ContentBlock → String
  | [] => FALLBACK_MESSAGE
  | ContentBlock.text s :: _ => s
  | ContentBlock.toolUse _ _ _ :: rest => extractText rest

/-- The observable outcome of one `generate_response` invocation: every
LLM request issued (in order), every tool dispatch performed (in order),
the number of completed dispatch rounds, and the returned answer. -/
structure Trace : Type where
  requests : List Request
  calls : List (String × ToolInput)
  rounds : Nat
  answer : String
deriving DecidableEq, Repr

/-- The `for round_num in range(MAX_TOOL_ROUNDS)` loop (lines 92-104),
with `fuel` the number of remaining iterations and `idx` the index of
the next LLM call.  Each iteration: break when the stop condition is not
"tool_use" or no dispatcher was supplied; dispatch all tool_use blocks;
break when that produced no results; append the assistant's full content
as one message and the batch of results as a single user message; issue
a new request.  On every exit, the answer is extracted from the last
completion (lines 106-110). -/
def toolLoop (llm : Nat → Response) (tool_manager : Option ExecuteTool)
    (model system : String) (tools : Option (List ToolDefinition)) :
    Nat → Nat → List Message → Response → List Request →
    List (String × ToolInput) → Nat → Trace
  | 0, _, _, response, reqs, calls, rounds =>
      ⟨reqs, calls, rounds, extractText response.content⟩
  | Nat.succ fuel, idx, messages, response, reqs, calls, rounds =>
      match tool_manager with
      | none => ⟨reqs, calls, rounds, extractText response.content⟩
      | some tm =>
          if response.stop_reason ≠ "tool_use" then
            ⟨reqs, calls, rounds, extractText response.content⟩
          else if executeToolCalls tm response.content = [] then
            ⟨reqs, calls, rounds, extractText response.content⟩
          else
            toolLoop llm tool_manager model system tools fuel (idx + 1)
              (messages ++
                [⟨"assistant", MessageContent.blocks response.content⟩,
                 ⟨"user", MessageContent.toolResults
                    (executeToolCalls tm response.content)⟩])
              (llm idx)
              (reqs ++
                [mkRequest model system tools
                  (messages ++
                    [⟨"assistant", MessageContent.blocks response.content⟩,
                     ⟨"user", MessageContent.toolResults
                        (executeToolCalls tm response.content)⟩])])
              (calls ++ toolCallsOf response.content)
              (rounds + 1)

/-- The method `AIGenerator.generate_response`: build the system content, seed the
conversation with the query as one user message, issue the initial
request (the completion is `llm 0`), and run the bounded tool loop. -/
def generateResponse (model query : String)
    (conversation_history : Option String)
    (tools : Option (List ToolDefinition))
    (tool_manager : Option ExecuteTool) (llm : Nat → Response) : Trace :=
  toolLoop llm tool_manager model (systemContent conversation_history) tools
    MAX_TOOL_ROUNDS 1
    [⟨"user", MessageContent.text query⟩]
    (llm 0)
    [mkRequest model (systemContent conversation_history) tools
      [⟨"user", MessageContent.text query⟩]]
    [] 0

/-! ## Derived message constructors and witness scenarios -/

/-- The initial user message seeded from the query. -/
def initialMessage (query : String) : Message :=
  ⟨"user", MessageContent.text query⟩

/-- The assistant message appended in a tool round: the completion's
full content. -/
def assistantMessage (response : Response) : Message :=
  ⟨"assistant", MessageContent.blocks response.content⟩

/-- The user message appended in a tool round: the batch of that round's
tool results. -/
def toolResultsMessage (tm : ExecuteTool) (response : Response) : Message :=
  ⟨"user", MessageContent.toolResults (executeToolCalls tm response.content)⟩

/-- The messages contributed by the first `n` tool rounds: per round one
assistant message and one tool-results user message, round `i + 1`
handling completion `llm i`. -/
def roundMessages (tm : ExecuteTool) (llm : Nat → Response) : Nat → List Message
  | 0 => []
  | n + 1 => roundMessages tm llm n ++
      [assistantMessage (llm n), toolResultsMessage tm (llm n)]

/-- Witness scenario: the dispatcher used by the concrete witnesses. -/
def witnessTm : ExecuteTool := fun name _ => "result from " ++ name

/-- Witness scenario: every completion requests one tool call. -/
def witnessLlmAllTools : Nat → Response := fun i =>
  ⟨"tool_use",
   [ContentBlock.toolUse "search_course_content" ("call_" ++ toString i)
      [("query", "MCP")]]⟩

/-- Witness scenario: one tool-requesting completion, then a text answer. -/
def witnessLlmOneRound : Nat → Response
  | 0 => ⟨"tool_use",
      [ContentBlock.toolUse "get_course_outline" "call_1"
        [("course_name", "MCP")]]⟩
  | _ => ⟨"end_turn", [ContentBlock.text "the answer"]⟩

/-- Witness scenario for C5: "tool_use" stop with text-only content. -/
def witnessLlmDegenerate : Nat → Response := fun _ =>
  ⟨"tool_use", [ContentBlock.text "I would like to use a tool"]⟩

/-- Counterexample scenario for C6: the completion stream used to
exercise the loop with a dispatcher but no tool definitions. -/
def c6Llm : Nat → Response
  | 0 => ⟨"tool_use",
      [ContentBlock.toolUse "search_course_content" "call_1"
        [("query", "x")]]⟩
  | _ => ⟨"end_turn", [ContentBlock.text "done"]⟩

/-- A sample tool definition used by the C7 witness. -/
def witnessToolDef : ToolDefinition :=
  ⟨"search_course_content", "Search course materials", "object"⟩

/-! ## The Tool Registry -/

/-- Modelled from the spec: the Tool Registry (`ToolManager` in the
repository's `search_tools.py`, whose implementation is not among the
provided sources — only its tests and its caller are).  It holds Tool
instances keyed by name in registration order; each tool's `execute`
takes the keyword arguments and returns a formatted string. -/
structure ToolManager : Type where
  tools : List (String × (ToolInput → String))

/-- Modelled from the spec: `execute_tool(name, **args)` looks the tool
up by name; if absent it returns (never raises) the error string
"Tool '<name>' not found"; otherwise it delegates to the tool's
`execute`. -/
def ToolManager.execute_tool (reg : ToolManager) (name : String)
    (args : ToolInput) : String :=
  match reg.tools.find? (fun p => p.1 == name) with
  | some p => p.2 args
  | none => "Tool '" ++ name ++ "' not found"

/-- An empty registry for the C8 witness. -/
def emptyRegistry : ToolManager := ⟨[]⟩

/-- The completion stream of the C8 witness: the LLM hallucinates the
tool name "bad_tool", then answers. -/
def c8Llm : Nat → Response
  | 0 => ⟨"tool_use", [ContentBlock.toolUse "bad_tool" "call_1"
      [("query", "x")]]⟩
  | _ => ⟨"end_turn", [ContentBlock.text "Sorry, I could not find that."]⟩

/-! ## Exceptional model: a dispatcher that may raise

The method `generate_response` wraps no tool dispatch in a try/except,
so an exception raised by `execute_tool` aborts the round and propagates.  To
observe this, the dispatcher is given the type
`String → ToolInput → Except ε String` and the loop is re-embedded in
the same shape, recording the dispatch attempts actually made. -/

/-- A dispatcher that may raise an exception of type `ε`. -/
abbrev ExecuteToolExc (ε : Type) := String → ToolInput → Except ε String

/-- The method `_execute_tool_calls` under a raising dispatcher: returns the
(name, kwargs) of the dispatch attempts made in block order, paired with
either the collected results or the first exception raised; blocks after
the raising one are never dispatched (the Python for-loop aborts). -/
def executeToolCallsExc {ε : Type} (tm : ExecuteToolExc ε) :
    List ContentBlock → List (String × ToolInput) × Except ε (List ToolResult)
  | [] => ([], Except.ok [])
  | ContentBlock.toolUse name id input :: rest =>
      match tm name input with
      | Except.error e => ([(name, input)], Except.error e)
      | Except.ok r =>
          match executeToolCallsExc tm rest with
          | (attempts, Except.error e) =>
              ((name, input) :: attempts, Except.error e)
          | (attempts, Except.ok rs) =>
              ((name, input) :: attempts,
               Except.ok ({ tool_use_id := id, content := r } :: rs))
  | ContentBlock.text _ :: rest => executeToolCallsExc tm rest

/-- The outcome of `generate_response` under a raising dispatcher: the
requests issued and dispatches attempted before returning or raising,
and either the answer or the propagated exception. -/
structure TraceExc (ε : Type) : Type where
  requests : List Request
  calls : List (String × ToolInput)
  rounds : Nat
  outcome : Except ε String

/-- The tool loop under a raising dispatcher: identical control flow to
`toolLoop`, except that an exception raised during a round's dispatch
ends the invocation at once with that exception. -/
def toolLoopExc {ε : Type} (llm : Nat → Response)
    (tool_manager : Option (ExecuteToolExc ε))
    (model system : String) (tools : Option (List ToolDefinition)) :
    Nat → Nat → List Message → Response → List Request →
    List (String × ToolInput) → Nat → TraceExc ε
  | 0, _, _, response, reqs, calls, rounds =>
      ⟨reqs, calls, rounds, Except.ok (extractText response.content)⟩
  | Nat.succ fuel, idx, messages, response, reqs, calls, rounds =>
      match tool_manager with
      | none => ⟨reqs, calls, rounds, Except.ok (extractText response.content)⟩
      | some tm =>
          if response.stop_reason ≠ "tool_use" then
            ⟨reqs, calls, rounds, Except.ok (extractText response.content)⟩
          else
            match executeToolCallsExc tm response.content with
            | (attempts, Except.error e) =>
                ⟨reqs, calls ++ attempts, rounds, Except.error e⟩
            | (attempts, Except.ok tool_results) =>
                if tool_results = [] then
                  ⟨reqs, calls ++ attempts, rounds,
                   Except.ok (extractText response.content)⟩
                else
                  toolLoopExc llm tool_manager model system tools fuel
                    (idx + 1)
                    (messages ++
                      [⟨"assistant", MessageContent.blocks response.content⟩,
                       ⟨"user", MessageContent.toolResults tool_results⟩])
                    (llm idx)
                    (reqs ++
                      [mkRequest model system tools
                        (messages ++
                          [⟨"assistant",
                            MessageContent.blocks response.content⟩,
                           ⟨"user",
                            MessageContent.toolResults tool_results⟩])])
                    (calls ++ attempts)
                    (rounds + 1)

/-- The method `generate_response` under a raising dispatcher. -/
def generateResponseExc {ε : Type} (model query : String)
    (conversation_history : Option String)
    (tools : Option (List ToolDefinition))
    (tool_manager : Option (ExecuteToolExc ε)) (llm : Nat → Response) :
    TraceExc ε :=
  toolLoopExc llm tool_manager model (systemContent conversation_history)
    tools MAX_TOOL_ROUNDS 1
    [⟨"user", MessageContent.text query⟩]
    (llm 0)
    [mkRequest model (systemContent conversation_history) tools
      [⟨"user", MessageContent.text query⟩]]
    [] 0

/-- The raising dispatcher of the C10 witness: every tool succeeds
except "boom", which raises "ConnectionError". -/
def c10Tm : ExecuteToolExc String := fun name _ =>
  if name = "boom" then Except.error "ConnectionError"
  else Except.ok "ok result"

/-- The completion stream of the C10 witness: one round requesting three
tools, the second of which raises. -/
def c10Llm : Nat → Response := fun _ =>
  ⟨"tool_use",
   [ContentBlock.toolUse "good_tool" "call_1" [],
    ContentBlock.toolUse "boom" "call_2" [],
    ContentBlock.toolUse "never_run" "call_3" []]⟩

/-! ## Unfolding equations for the tool loop, and scenario lemmas
describing the behaviour of `generateResponse` on each control path -/

/-- Exhausted round budget: extract from the last completion. -/
theorem toolLoop_zero (llm : Nat → Response) (tm : Option ExecuteTool)
    (model system : String) (tools : Option (List ToolDefinition))
    (idx : Nat) (messages : List Message) (response : Response)
    (reqs : List Request) (calls : List (String × ToolInput)) (rounds : Nat) :
    toolLoop llm tm model system tools 0 idx messages response reqs calls rounds =
      ⟨reqs, calls, rounds, extractText response.content⟩ := rfl

/-- No dispatcher supplied: the loop breaks at once. -/
theorem toolLoop_succ_none (llm : Nat → Response)
    (model system : String) (tools : Option (List ToolDefinition))
    (fuel idx : Nat) (messages : List Message) (response : Response)
    (reqs : List Request) (calls : List (String × ToolInput)) (rounds : Nat) :
    toolLoop llm none model system tools (Nat.succ fuel) idx messages response
        reqs calls rounds =
      ⟨reqs, calls, rounds, extractText response.content⟩ := rfl

/-- One iteration with a dispatcher present. -/
theorem toolLoop_succ_some (llm : Nat → Response) (tm : ExecuteTool)
    (model system : String) (tools : Option (List ToolDefinition))
    (fuel idx : Nat) (messages : List Message) (response : Response)
    (reqs : List Request) (calls : List (String × ToolInput)) (rounds : Nat) :
    toolLoop llm (some tm) model system tools (Nat.succ fuel) idx messages
        response reqs calls rounds =
      if response.stop_reason ≠ "tool_use" then
        ⟨reqs, calls, rounds, extractText response.content⟩
      else if executeToolCalls tm response.content = [] then
        ⟨reqs, calls, rounds, extractText response.content⟩
      else
        toolLoop llm (some tm) model system tools fuel (idx + 1)
          (messages ++
            [⟨"assistant", MessageContent.blocks response.content⟩,
             ⟨"user", MessageContent.toolResults
                (executeToolCalls tm response.content)⟩])
          (llm idx)
          (reqs ++
            [mkRequest model system tools
              (messages ++
                [⟨"assistant", MessageContent.blocks response.content⟩,
                 ⟨"user", MessageContent.toolResults
                    (executeToolCalls tm response.content)⟩])])
          (calls ++ toolCallsOf response.content)
          (rounds + 1) := rfl

/-- The round budget as an explicit pair of successors. -/
theorem max_tool_rounds_succ : MAX_TOOL_ROUNDS = Nat.succ (Nat.succ 0) := rfl

theorem generateResponse_eq_toolLoop (model query : String)
    (conversation_history : Option String)
    (tools : Option (List ToolDefinition))
    (tool_manager : Option ExecuteTool) (llm : Nat → Response) :
    generateResponse model query conversation_history tools tool_manager llm =
      toolLoop llm tool_manager model (systemContent conversation_history)
        tools MAX_TOOL_ROUNDS 1 [initialMessage query] (llm 0)
        [mkRequest model (systemContent conversation_history) tools
          [initialMessage query]] [] 0 := rfl

/-- Path with no dispatcher: a single request, no dispatch. -/
theorem gen_no_manager (model query : String) (hist : Option String)
    (tools : Option (List ToolDefinition)) (llm : Nat → Response) :
    generateResponse model query hist tools none llm =
      ⟨[mkRequest model (systemContent hist) tools [initialMessage query]],
       [], 0, extractText (llm 0).content⟩ := rfl

/-- Path where the initial completion does not request a tool: a single
request, no dispatch. -/
theorem gen_stop0 (model query : String) (hist : Option String)
    (tools : Option (List ToolDefinition)) (tm : ExecuteTool)
    (llm : Nat → Response) (h0 : (llm 0).stop_reason ≠ "tool_use") :
    generateResponse model query hist tools (some tm) llm =
      ⟨[mkRequest model (systemContent hist) tools [initialMessage query]],
       [], 0, extractText (llm 0).content⟩ := by
  rw [generateResponse_eq_toolLoop, max_tool_rounds_succ, toolLoop_succ_some,
    if_pos h0]

/-- Degenerate path: the initial completion signals "tool_use" but holds
no tool_use block, so dispatch yields no results and the loop breaks. -/
theorem gen_degenerate0 (model query : String) (hist : Option String)
    (tools : Option (List ToolDefinition)) (tm : ExecuteTool)
    (llm : Nat → Response)
    (hres : executeToolCalls tm (llm 0).content = []) :
    generateResponse model query hist tools (some tm) llm =
      ⟨[mkRequest model (systemContent hist) tools [initialMessage query]],
       [], 0, extractText (llm 0).content⟩ := by
  rw [generateResponse_eq_toolLoop, max_tool_rounds_succ, toolLoop_succ_some]
  by_cases h0 : (llm 0).stop_reason ≠ "tool_use"
  · rw [if_pos h0]
  · rw [if_neg h0, if_pos hres]

/-- One completed tool round, after which the follow-up completion ends
the loop (either it does not request a tool, or it requests one with no
tool_use block). -/
theorem gen_round1 (model query : String) (hist : Option String)
    (tools : Option (List ToolDefinition)) (tm : ExecuteTool)
    (llm : Nat → Response)
    (h0 : (llm 0).stop_reason = "tool_use")
    (r0 : executeToolCalls tm (llm 0).content ≠ [])
    (hdone : (llm 1).stop_reason ≠ "tool_use" ∨
      executeToolCalls tm (llm 1).content = []) :
    generateResponse model query hist tools (some tm) llm =
      ⟨[mkRequest model (systemContent hist) tools [initialMessage query],
        mkRequest model (systemContent hist) tools
          (initialMessage query :: roundMessages tm llm 1)],
       toolCallsOf (llm 0).content, 1, extractText (llm 1).content⟩ := by
  rw [generateResponse_eq_toolLoop, max_tool_rounds_succ, toolLoop_succ_some,
    if_neg (by simp [h0]), if_neg r0, toolLoop_succ_some]
  by_cases h1 : (llm 1).stop_reason ≠ "tool_use"
  · rw [if_pos h1]
    simp [roundMessages, initialMessage, assistantMessage, toolResultsMessage]
  · rw [if_neg h1, if_pos (hdone.resolve_left h1)]
    simp [roundMessages, initialMessage, assistantMessage, toolResultsMessage]

/-- Two completed tool rounds: the budget is exhausted, so the loop ends
regardless of the stop condition of the third completion, whose content
supplies the answer. -/
theorem gen_round2 (model query : String) (hist : Option String)
    (tools : Option (List ToolDefinition)) (tm : ExecuteTool)
    (llm : Nat → Response)
    (h0 : (llm 0).stop_reason = "tool_use")
    (r0 : executeToolCalls tm (llm 0).content ≠ [])
    (h1 : (llm 1).stop_reason = "tool_use")
    (r1 : executeToolCalls tm (llm 1).content ≠ []) :
    generateResponse model query hist tools (some tm) llm =
      ⟨[mkRequest model (systemContent hist) tools [initialMessage query],
        mkRequest model (systemContent hist) tools
          (initialMessage query :: roundMessages tm llm 1),
        mkRequest model (systemContent hist) tools
          (initialMessage query :: roundMessages tm llm 2)],
       toolCallsOf (llm 0).content ++ toolCallsOf (llm 1).content, 2,
       extractText (llm 2).content⟩ := by
  rw [generateResponse_eq_toolLoop, max_tool_rounds_succ, toolLoop_succ_some,
    if_neg (by simp [h0]), if_neg r0, toolLoop_succ_some,
    if_neg (by simp [h1]), if_neg r1, toolLoop_zero]
  simp [roundMessages, initialMessage, assistantMessage, toolResultsMessage]

/-! ## General bounds and shape lemmas on the loop -/

theorem toolLoop_rounds_le (llm : Nat → Response) (tm : Option ExecuteTool)
    (model system : String) (tools : Option (List ToolDefinition)) :
    ∀ fuel idx messages response reqs calls rounds,
      (toolLoop llm tm model system tools fuel idx messages response reqs
        calls rounds).rounds ≤ rounds + fuel := by
  intro fuel
  induction fuel with
  | zero =>
    intro idx messages response reqs calls rounds
    rw [toolLoop_zero]
    dsimp only
    omega
  | succ n ih =>
    intro idx messages response reqs calls rounds
    cases tm with
    | none => rw [toolLoop_succ_none]; dsimp only; omega
    | some mgr =>
      rw [toolLoop_succ_some]
      split_ifs with h1 h2
      · dsimp only; omega
      · dsimp only; omega
      · exact le_trans (ih _ _ _ _ _ _) (by omega)

theorem toolLoop_requests_length_le (llm : Nat → Response)
    (tm : Option ExecuteTool) (model system : String)
    (tools : Option (List ToolDefinition)) :
    ∀ fuel idx messages response reqs calls rounds,
      (toolLoop llm tm model system tools fuel idx messages response reqs
        calls rounds).requests.length ≤ reqs.length + fuel := by
  intro fuel
  induction fuel with
  | zero =>
    intro idx messages response reqs calls rounds
    rw [toolLoop_zero]
    dsimp only
    omega
  | succ n ih =>
    intro idx messages response reqs calls rounds
    cases tm with
    | none => rw [toolLoop_succ_none]; dsimp only; omega
    | some mgr =>
      rw [toolLoop_succ_some]
      split_ifs with h1 h2
      · dsimp only; omega
      · dsimp only; omega
      · refine le_trans (ih _ _ _ _ _ _) ?_
        simp
        omega

/-- Every request the loop adds to the accumulator is assembled by
`mkRequest` from the same model, system content and tool definitions. -/
theorem toolLoop_requests_shape (llm : Nat → Response)
    (tm : Option ExecuteTool) (model system : String)
    (tools : Option (List ToolDefinition)) :
    ∀ fuel idx messages response reqs calls rounds,
      ∀ r ∈ (toolLoop llm tm model system tools fuel idx messages response
        reqs calls rounds).requests,
        r ∈ reqs ∨ ∃ ms, r = mkRequest model system tools ms := by
  intro fuel
  induction fuel with
  | zero =>
    intro idx messages response reqs calls rounds r hr
    rw [toolLoop_zero] at hr
    exact Or.inl hr
  | succ n ih =>
    intro idx messages response reqs calls rounds r hr
    cases tm with
    | none => rw [toolLoop_succ_none] at hr; exact Or.inl hr
    | some mgr =>
      rw [toolLoop_succ_some] at hr
      split_ifs at hr with h1 h2
      · exact Or.inl hr
      · exact Or.inl hr
      · rcases ih _ _ _ _ _ _ _ hr with hmem | hshape
        · rcases List.mem_append.mp hmem with hmem | hmem
          · exact Or.inl hmem
          · exact Or.inr ⟨_, (List.mem_singleton.mp hmem)⟩
        · exact Or.inr hshape

/-- The loop only appends to the request accumulator. -/
theorem toolLoop_requests_mono (llm : Nat → Response)
    (tm : Option ExecuteTool) (model system : String)
    (tools : Option (List ToolDefinition)) :
    ∀ fuel idx messages response reqs calls rounds,
      ∃ rest, (toolLoop llm tm model system tools fuel idx messages response
        reqs calls rounds).requests = reqs ++ rest := by
  intro fuel
  induction fuel with
  | zero =>
    intro idx messages response reqs calls rounds
    exact ⟨[], by rw [toolLoop_zero]; simp⟩
  | succ n ih =>
    intro idx messages response reqs calls rounds
    cases tm with
    | none => exact ⟨[], by rw [toolLoop_succ_none]; simp⟩
    | some mgr =>
      rw [toolLoop_succ_some]
      split_ifs with h1 h2
      · exact ⟨[], by simp⟩
      · exact ⟨[], by simp⟩
      · obtain ⟨rest, hrest⟩ := ih _ _ _ _ _ _
        exact ⟨_, by rw [hrest, List.append_assoc]⟩

/-- Likewise for the dispatch-call accumulator. -/
theorem toolLoop_calls_mono (llm : Nat → Response)
    (tm : Option ExecuteTool) (model system : String)
    (tools : Option (List ToolDefinition)) :
    ∀ fuel idx messages response reqs calls rounds,
      ∃ rest, (toolLoop llm tm model system tools fuel idx messages response
        reqs calls rounds).calls = calls ++ rest := by
  intro fuel
  induction fuel with
  | zero =>
    intro idx messages response reqs calls rounds
    exact ⟨[], by rw [toolLoop_zero]; simp⟩
  | succ n ih =>
    intro idx messages response reqs calls rounds
    cases tm with
    | none => exact ⟨[], by rw [toolLoop_succ_none]; simp⟩
    | some mgr =>
      rw [toolLoop_succ_some]
      split_ifs with h1 h2
      · exact ⟨[], by simp⟩
      · exact ⟨[], by simp⟩
      · obtain ⟨rest, hrest⟩ := ih _ _ _ _ _ _
        exact ⟨_, by rw [hrest, List.append_assoc]⟩

theorem roundMessages_length (tm : ExecuteTool) (llm : Nat → Response) :
    ∀ n, (roundMessages tm llm n).length = 2 * n := by
  intro n
  induction n with
  | zero => rfl
  | succ k ih => simp [roundMessages, ih]; omega

/-! ## Block-level lemmas -/

/-- Dispatching a block list with no tool_use block yields no results. -/
theorem executeToolCalls_nil_of_no_toolUse (tm : ExecuteTool) :
    ∀ bs : List ContentBlock,
      (∀ name id input, ContentBlock.toolUse name id input ∉ bs) →
      executeToolCalls tm bs = [] := by
  intro bs
  induction bs with
  | nil => intro _; rfl
  | cons b rest ih =>
    intro hno
    cases b with
    | text s =>
      rw [executeToolCalls]
      exact ih fun name id input hmem =>
        hno name id input (List.mem_cons_of_mem _ hmem)
    | toolUse name id input =>
      exact absurd (List.mem_cons_self _ _) (hno name id input)

/-! ## Claims -/

/-- C1: For every invocation of `generate_response`, no matter how many
consecutive completions signal a tool request, at most
MAX_TOOL_ROUNDS (2) rounds of tool dispatch are executed and at most 3
LLM requests are issued; when a third tool-requesting completion
arrives, its own text (if any) is returned as-is — the answer is
extracted from that completion's content — and its tool_use blocks are
never dispatched, so the loop always terminates. -/
theorem c1_loop_bounded (model query : String) (hist : Option String)
    (tools : Option (List ToolDefinition))
    (tool_manager : Option ExecuteTool) (llm : Nat → Response) :
    (generateResponse model query hist tools tool_manager llm).rounds ≤
        MAX_TOOL_ROUNDS ∧
    (generateResponse model query hist tools tool_manager llm).requests.length
        ≤ 3 ∧
    ∀ tm, tool_manager = some tm →
      (llm 0).stop_reason = "tool_use" →
      executeToolCalls tm (llm 0).content ≠ [] →
      (llm 1).stop_reason = "tool_use" →
      executeToolCalls tm (llm 1).content ≠ [] →
      (llm 2).stop_reason = "tool_use" →
      (generateResponse model query hist tools tool_manager llm).answer =
          extractText (llm 2).content ∧
      (generateResponse model query hist tools tool_manager llm).rounds =
          MAX_TOOL_ROUNDS ∧
      (generateResponse model query hist tools tool_manager llm).calls =
          toolCallsOf (llm 0).content ++ toolCallsOf (llm 1).content := by
  refine ⟨?_, ?_, ?_⟩
  · rw [generateResponse_eq_toolLoop]
    simpa using toolLoop_rounds_le llm tool_manager model
      (systemContent hist) tools MAX_TOOL_ROUNDS 1 [initialMessage query]
      (llm 0)
      [mkRequest model (systemContent hist) tools [initialMessage query]] [] 0
  · rw [generateResponse_eq_toolLoop]
    have h := toolLoop_requests_length_le llm tool_manager model
      (systemContent hist) tools MAX_TOOL_ROUNDS 1 [initialMessage query]
      (llm 0)
      [mkRequest model (systemContent hist) tools [initialMessage query]] [] 0
    simpa [MAX_TOOL_ROUNDS] using h
  · intro tm htm h0 r0 h1 r1 h2
    subst htm
    rw [gen_round2 model query hist tools tm llm h0 r0 h1 r1]
    exact ⟨rfl, rfl, rfl⟩

/-- Witness for C1: a run in which every completion requests another
tool call ends after exactly two rounds, with the third completion's
content supplying the answer and its tool_use block undispatched. -/
theorem c1_loop_bounded_witness :
    (generateResponse "claude-test" "q" none none (some witnessTm)
        witnessLlmAllTools).answer =
      extractText (witnessLlmAllTools 2).content ∧
    (generateResponse "claude-test" "q" none none (some witnessTm)
        witnessLlmAllTools).rounds = MAX_TOOL_ROUNDS ∧
    (generateResponse "claude-test" "q" none none (some witnessTm)
        witnessLlmAllTools).calls =
      toolCallsOf (witnessLlmAllTools 0).content ++
        toolCallsOf (witnessLlmAllTools 1).content :=
  (c1_loop_bounded "claude-test" "q" none none (some witnessTm)
      witnessLlmAllTools).2.2 witnessTm rfl rfl (by decide) rfl (by decide)
      rfl

/-- C2: For every sequence of N ≤ 2 tool-requesting completions each
containing at least one tool_use block, followed by a completion whose
stop condition is not a tool request, `generate_response` issues exactly
N + 1 LLM requests and performs exactly N dispatch rounds, and the
message sequence passed to the (N+1)-th request has length 1 + 2N: the
initial user message, then per round one assistant message (the
completion's full content) and one user message (that round's tool
results). -/
theorem c2_rounds_and_message_growth (model query : String)
    (hist : Option String) (tools : Option (List ToolDefinition))
    (tm : ExecuteTool) (llm : Nat → Response) (N : Nat)
    (hN : N ≤ MAX_TOOL_ROUNDS)
    (hrounds : ∀ i, i < N → (llm i).stop_reason = "tool_use" ∧
      executeToolCalls tm (llm i).content ≠ [])
    (hstop : (llm N).stop_reason ≠ "tool_use") :
    (generateResponse model query hist tools (some tm) llm).requests.length
        = N + 1 ∧
    (generateResponse model query hist tools (some tm) llm).rounds = N ∧
    (generateResponse model query hist tools (some tm) llm).requests.getLast?
        = some (mkRequest model (systemContent hist) tools
            (initialMessage query :: roundMessages tm llm N)) ∧
    (initialMessage query :: roundMessages tm llm N).length = 1 + 2 * N := by
  have hmax : MAX_TOOL_ROUNDS = 2 := rfl
  have hcases : N = 0 ∨ N = 1 ∨ N = 2 := by omega
  rcases hcases with hn | hn | hn
  · subst hn
    rw [gen_stop0 model query hist tools tm llm hstop]
    exact ⟨rfl, rfl, rfl, rfl⟩
  · subst hn
    obtain ⟨h0, r0⟩ := hrounds 0 (by omega)
    rw [gen_round1 model query hist tools tm llm h0 r0 (Or.inl hstop)]
    refine ⟨rfl, rfl, rfl, ?_⟩
    simp [roundMessages_length]
  · subst hn
    obtain ⟨h0, r0⟩ := hrounds 0 (by omega)
    obtain ⟨h1, r1⟩ := hrounds 1 (by omega)
    rw [gen_round2 model query hist tools tm llm h0 r0 h1 r1]
    refine ⟨rfl, rfl, rfl, ?_⟩
    simp [roundMessages_length]

/-- Witness for C2: one tool round (N = 1) gives two requests, one
dispatch round, and a three-message conversation in the second
request. -/
theorem c2_rounds_and_message_growth_witness :
    (generateResponse "claude-test" "q" none none (some witnessTm)
        witnessLlmOneRound).requests.length = 1 + 1 ∧
    (generateResponse "claude-test" "q" none none (some witnessTm)
        witnessLlmOneRound).rounds = 1 ∧
    (generateResponse "claude-test" "q" none none (some witnessTm)
        witnessLlmOneRound).requests.getLast?
        = some (mkRequest "claude-test" (systemContent none) none
            (initialMessage "q" ::
              roundMessages witnessTm witnessLlmOneRound 1)) ∧
    (initialMessage "q" ::
        roundMessages witnessTm witnessLlmOneRound 1).length = 1 + 2 * 1 :=
  c2_rounds_and_message_growth "claude-test" "q" none none witnessTm
    witnessLlmOneRound 1 (by decide)
    (fun i hi => by
      have hz : i = 0 := by omega
      subst hz
      exact ⟨rfl, by decide⟩)
    (by decide)

/-- C3: For every final completion, the answer is the string of the
first text block when scanning the content blocks in order; if no
content block carries text, a fixed non-empty fallback message asking
the user to rephrase is returned, never an empty or null answer. -/
theorem c3_first_text_or_fallback :
    (∀ (pre post : List ContentBlock) (s : String),
      (∀ b ∈ pre, ∀ t, b ≠ ContentBlock.text t) →
      extractText (pre ++ ContentBlock.text s :: post) = s) ∧
    (∀ bs : List ContentBlock,
      (∀ b ∈ bs, ∀ t, b ≠ ContentBlock.text t) →
      extractText bs = FALLBACK_MESSAGE) ∧
    FALLBACK_MESSAGE ≠ "" := by
  refine ⟨?_, ?_, by decide⟩
  · intro pre
    induction pre with
    | nil => intro post s _; rfl
    | cons b rest ih =>
      intro post s hno
      cases b with
      | text t => exact absurd rfl (hno _ (List.mem_cons_self _ _) t)
      | toolUse name id input =>
        rw [List.cons_append, extractText]
        exact ih post s fun b hb => hno b (List.mem_cons_of_mem _ hb)
  · intro bs
    induction bs with
    | nil => intro _; rfl
    | cons b rest ih =>
      intro hno
      cases b with
      | text t => exact absurd rfl (hno _ (List.mem_cons_self _ _) t)
      | toolUse name id input =>
        rw [extractText]
        exact ih fun b hb => hno b (List.mem_cons_of_mem _ hb)

/-- Witness for C3: a tool_use block is skipped, the first of two text
blocks wins; a completion with no text block yields the fallback. -/
theorem c3_first_text_or_fallback_witness :
    extractText
        ([ContentBlock.toolUse "search_course_content" "call_1" []] ++
          ContentBlock.text "first" :: [ContentBlock.text "second"]) =
      "first" ∧
    extractText [ContentBlock.toolUse "search_course_content" "call_1" []] =
      FALLBACK_MESSAGE :=
  ⟨c3_first_text_or_fallback.1
      [ContentBlock.toolUse "search_course_content" "call_1" []]
      [ContentBlock.text "second"] "first"
      (fun b hb t => by rw [List.mem_singleton] at hb; subst hb; simp),
   c3_first_text_or_fallback.2.1
      [ContentBlock.toolUse "search_course_content" "call_1" []]
      (fun b hb t => by rw [List.mem_singleton] at hb; subst hb; simp)⟩

/-- In a completed first round, the second request extends the
conversation with exactly the assistant's full content and one user
message holding the round's tool results, and the dispatches of that
round are the completion's tool calls in block order. -/
theorem gen_first_round_request (model query : String) (hist : Option String)
    (tools : Option (List ToolDefinition)) (tm : ExecuteTool)
    (llm : Nat → Response) (h0 : (llm 0).stop_reason = "tool_use")
    (r0 : executeToolCalls tm (llm 0).content ≠ []) :
    (generateResponse model query hist tools (some tm) llm).requests[1]? =
      some (mkRequest model (systemContent hist) tools
        [initialMessage query, assistantMessage (llm 0),
         toolResultsMessage tm (llm 0)]) ∧
    ∃ rest, (generateResponse model query hist tools (some tm) llm).calls =
      toolCallsOf (llm 0).content ++ rest := by
  rw [generateResponse_eq_toolLoop, max_tool_rounds_succ, toolLoop_succ_some,
    if_neg (by simp [h0]), if_neg r0]
  constructor
  · obtain ⟨rest, hrest⟩ := toolLoop_requests_mono llm (some tm) model
      (systemContent hist) tools (Nat.succ 0) _ _ _ _ _ _
    rw [hrest]
    simp [initialMessage, assistantMessage, toolResultsMessage]
  · obtain ⟨rest, hrest⟩ := toolLoop_calls_mono llm (some tm) model
      (systemContent hist) tools (Nat.succ 0) _ _ _ _ _ _
    rw [hrest]
    exact ⟨rest, by simp⟩

/-- C4: In every tool round, each tool_use content block is dispatched
in block order, producing exactly one tool_result per block whose
tool_use_id is that block's call identifier and whose content is the
dispatcher's returned string; the assistant's full completion content is
appended as one assistant message and all of the round's tool_results
together as a single following user message. -/
theorem c4_dispatch_and_append (tm : ExecuteTool) :
    (∀ (pre post : List ContentBlock) (name id : String) (inp : ToolInput),
      executeToolCalls tm (pre ++ ContentBlock.toolUse name id inp :: post) =
        executeToolCalls tm pre ++
          { tool_use_id := id, content := tm name inp } ::
            executeToolCalls tm post) ∧
    (∀ (model query : String) (hist : Option String)
        (tools : Option (List ToolDefinition)) (llm : Nat → Response),
      (llm 0).stop_reason = "tool_use" →
      executeToolCalls tm (llm 0).content ≠ [] →
      (generateResponse model query hist tools (some tm) llm).requests[1]? =
        some (mkRequest model (systemContent hist) tools
          [initialMessage query,
           ⟨"assistant", MessageContent.blocks (llm 0).content⟩,
           ⟨"user", MessageContent.toolResults
              (executeToolCalls tm (llm 0).content)⟩]) ∧
      ∃ rest,
        (generateResponse model query hist tools (some tm) llm).calls =
          toolCallsOf (llm 0).content ++ rest) := by
  constructor
  · intro pre
    induction pre with
    | nil => intro post name id inp; rfl
    | cons b rest ih =>
      intro post name id inp
      cases b with
      | text s => rw [List.cons_append, executeToolCalls, executeToolCalls]
                  exact ih post name id inp
      | toolUse n i a =>
        rw [List.cons_append, executeToolCalls, executeToolCalls,
          List.cons_append, ih post name id inp]
  · intro model query hist tools llm h0 r0
    exact gen_first_round_request model query hist tools tm llm h0 r0

/-- Witness for C4: a round with a text block between two tool_use
blocks dispatches both in order, and the second request carries the
assistant content plus the batched results. -/
theorem c4_dispatch_and_append_witness :
    (executeToolCalls witnessTm
        ([ContentBlock.text "let me look"] ++
          ContentBlock.toolUse "get_course_outline" "call_1" [] ::
            [ContentBlock.toolUse "search_course_content" "call_2" []]) =
      executeToolCalls witnessTm [ContentBlock.text "let me look"] ++
        { tool_use_id := "call_1",
          content := witnessTm "get_course_outline" [] } ::
          executeToolCalls witnessTm
            [ContentBlock.toolUse "search_course_content" "call_2" []]) ∧
    ((generateResponse "claude-test" "q" none none (some witnessTm)
        witnessLlmOneRound).requests[1]? =
      some (mkRequest "claude-test" (systemContent none) none
        [initialMessage "q",
         ⟨"assistant",
          MessageContent.blocks (witnessLlmOneRound 0).content⟩,
         ⟨"user", MessageContent.toolResults
            (executeToolCalls witnessTm (witnessLlmOneRound 0).content)⟩]) ∧
     ∃ rest,
       (generateResponse "claude-test" "q" none none (some witnessTm)
          witnessLlmOneRound).calls =
         toolCallsOf (witnessLlmOneRound 0).content ++ rest) :=
  ⟨(c4_dispatch_and_append witnessTm).1 [ContentBlock.text "let me look"]
      [ContentBlock.toolUse "search_course_content" "call_2" []]
      "get_course_outline" "call_1" [],
   (c4_dispatch_and_append witnessTm).2 "claude-test" "q" none none
      witnessLlmOneRound rfl (by decide)⟩

/-- C5: If a completion signals a tool request but contains zero
tool_use content blocks, the loop terminates immediately: no further
LLM request, no messages appended, no dispatch, and the answer is
extracted from that completion's own content (and, the embedding being
total, no exception is possible). -/
theorem c5_degenerate_tool_request (model query : String)
    (hist : Option String) (tools : Option (List ToolDefinition))
    (tm : ExecuteTool) (llm : Nat → Response)
    (_h0 : (llm 0).stop_reason = "tool_use")
    (hno : ∀ name id input,
      ContentBlock.toolUse name id input ∉ (llm 0).content) :
    (generateResponse model query hist tools (some tm) llm).requests.length
        = 1 ∧
    (generateResponse model query hist tools (some tm) llm).rounds = 0 ∧
    (generateResponse model query hist tools (some tm) llm).calls = [] ∧
    (generateResponse model query hist tools (some tm) llm).answer =
      extractText (llm 0).content := by
  rw [gen_degenerate0 model query hist tools tm llm
    (executeToolCalls_nil_of_no_toolUse tm (llm 0).content hno)]
  exact ⟨rfl, rfl, rfl, rfl⟩

/-- Witness for C5: a tool-requesting completion with no tool_use block
ends the run with one request and the completion's own text. -/
theorem c5_degenerate_tool_request_witness :
    (generateResponse "claude-test" "q" none none (some witnessTm)
        witnessLlmDegenerate).requests.length = 1 ∧
    (generateResponse "claude-test" "q" none none (some witnessTm)
        witnessLlmDegenerate).rounds = 0 ∧
    (generateResponse "claude-test" "q" none none (some witnessTm)
        witnessLlmDegenerate).calls = [] ∧
    (generateResponse "claude-test" "q" none none (some witnessTm)
        witnessLlmDegenerate).answer =
      extractText (witnessLlmDegenerate 0).content :=
  c5_degenerate_tool_request "claude-test" "q" none none witnessTm
    witnessLlmDegenerate rfl
    (fun name id input h => by simp [witnessLlmDegenerate] at h)

/-- C6 counterexample: with NO tool definitions supplied (`tools = none`)
but a dispatcher present, a tool-requesting completion still triggers a
round, so two LLM requests are issued — the claim's "exactly one LLM
request ... regardless of the completion's stop condition" fails: the
loop's guard tests the dispatcher, not the tool definitions. -/
theorem c6_counterexample :
    (generateResponse "claude-test" "q" none none (some witnessTm)
        c6Llm).requests.length = 2 ∧
    ¬ (generateResponse "claude-test" "q" none none (some witnessTm)
        c6Llm).requests.length = 1 := by
  have h2 : (generateResponse "claude-test" "q" none none (some witnessTm)
      c6Llm).requests.length = 2 := rfl
  refine ⟨h2, ?_⟩
  rw [h2]
  decide

/-- C6 (amended): For every query invoked with no dispatcher
(`tool_manager = None`) supplied, `generate_response` issues exactly one
LLM request and extracts the answer from that single completion —
returning its first text block verbatim — regardless of the completion's
stop condition and of whether tool definitions were supplied. -/
theorem c6_amended_no_dispatcher (model query : String)
    (hist : Option String) (tools : Option (List ToolDefinition))
    (llm : Nat → Response) :
    (generateResponse model query hist tools none llm).requests.length = 1 ∧
    (generateResponse model query hist tools none llm).rounds = 0 ∧
    (generateResponse model query hist tools none llm).answer =
      extractText (llm 0).content := by
  rw [gen_no_manager]
  exact ⟨rfl, rfl, rfl⟩

/-- The fields of every assembled request other than the messages. -/
theorem mkRequest_fields (model system : String)
    (tools : Option (List ToolDefinition)) (ms : List Message) :
    (mkRequest model system tools ms).model = model ∧
    (mkRequest model system tools ms).temperature = 0 ∧
    (mkRequest model system tools ms).max_tokens = 800 ∧
    (mkRequest model system tools ms).system = system ∧
    (∀ l, tools = some l → l ≠ [] →
      (mkRequest model system tools ms).tools = some l ∧
      (mkRequest model system tools ms).tool_choice = some "auto") ∧
    (toolsTruthy tools = false →
      (mkRequest model system tools ms).tools = none ∧
      (mkRequest model system tools ms).tool_choice = none) := by
  refine ⟨rfl, rfl, rfl, rfl, ?_, ?_⟩
  · intro l hl hne
    subst hl
    cases l with
    | nil => exact absurd rfl hne
    | cons d ds => exact ⟨rfl, rfl⟩
  · intro hfalse
    simp [mkRequest, hfalse]

/-- C7: Across all LLM requests issued within one `generate_response`
invocation, every request parameter except the message sequence is
unchanged: sampling temperature is fixed at 0, the maximum output size
is the fixed constant 800, the model and the system context string are
the same in every round, and when (truthy) tool definitions were
supplied every request carries those same definitions with the
automatic tool-selection mode (while absent/empty definitions are never
sent). -/
theorem c7_request_params_constant (model query : String)
    (hist : Option String) (tools : Option (List ToolDefinition))
    (tool_manager : Option ExecuteTool) (llm : Nat → Response) :
    ∀ r ∈ (generateResponse model query hist tools tool_manager
        llm).requests,
      r.model = model ∧ r.temperature = 0 ∧ r.max_tokens = 800 ∧
      r.system = systemContent hist ∧
      (∀ l, tools = some l → l ≠ [] →
        r.tools = some l ∧ r.tool_choice = some "auto") ∧
      (toolsTruthy tools = false →
        r.tools = none ∧ r.tool_choice = none) := by
  intro r hr
  rw [generateResponse_eq_toolLoop] at hr
  rcases toolLoop_requests_shape llm tool_manager model (systemContent hist)
      tools MAX_TOOL_ROUNDS 1 [initialMessage query] (llm 0)
      [mkRequest model (systemContent hist) tools [initialMessage query]]
      [] 0 r hr with hmem | ⟨ms, hms⟩
  · rw [List.mem_singleton] at hmem
    subst hmem
    exact mkRequest_fields model (systemContent hist) tools
      [initialMessage query]
  · subst hms
    exact mkRequest_fields model (systemContent hist) tools ms

/-- Witness for C7: in a two-request run with tool definitions supplied,
the second request still carries temperature 0, max_tokens 800, the same
system string, the same tool definitions and the auto tool choice. -/
theorem c7_request_params_constant_witness :
    ∃ r, (generateResponse "claude-test" "q" none (some [witnessToolDef])
        (some witnessTm) witnessLlmOneRound).requests[1]? = some r ∧
      r.model = "claude-test" ∧ r.temperature = 0 ∧ r.max_tokens = 800 ∧
      r.system = systemContent none ∧ r.tools = some [witnessToolDef] ∧
      r.tool_choice = some "auto" := by
  obtain ⟨req1, hreq1⟩ :
      ∃ req1, (generateResponse "claude-test" "q" none
        (some [witnessToolDef]) (some witnessTm)
          witnessLlmOneRound).requests[1]? = some req1 := ⟨_, rfl⟩
  have hmem : req1 ∈ (generateResponse "claude-test" "q" none
      (some [witnessToolDef]) (some witnessTm)
        witnessLlmOneRound).requests := by
    exact List.getElem?_mem hreq1
  obtain ⟨hm, ht, hmax, hsys, htools, -⟩ :=
    c7_request_params_constant "claude-test" "q" none
      (some [witnessToolDef]) (some witnessTm) witnessLlmOneRound req1 hmem
  obtain ⟨htl, htc⟩ := htools [witnessToolDef] rfl (by decide)
  exact ⟨req1, hreq1, hm, ht, hmax, hsys, htl, htc⟩

/-- C9: Passing `conversation_history = ""` (empty but present) is
treated exactly as passing no history at all: the system context is the
bare system prompt with no "Previous conversation" suffix, and the whole
observable behaviour of `generate_response` is identical. -/
theorem c9_empty_history_ignored (model query : String)
    (tools : Option (List ToolDefinition))
    (tool_manager : Option ExecuteTool) (llm : Nat → Response) :
    generateResponse model query (some "") tools tool_manager llm =
      generateResponse model query none tools tool_manager llm ∧
    systemContent (some "") = SYSTEM_PROMPT := ⟨rfl, rfl⟩

/-- C8: For every tool name not registered in the Tool Registry,
`execute_tool` returns (never raises) the error string
"Tool '<name>' not found" — a string containing "not found" that names
the missing tool — and the Generator Loop delivers this string unchanged
to the LLM as the content of a `tool_result` block of the next request's
user message. -/
theorem c8_unknown_tool_error_string (reg : ToolManager) (name : String)
    (args : ToolInput) (habsent : ∀ p ∈ reg.tools, p.1 ≠ name) :
    reg.execute_tool name args = "Tool '" ++ name ++ "' not found" ∧
    (∃ a b, reg.execute_tool name args = a ++ "not found" ++ b) ∧
    (∃ a b, reg.execute_tool name args = a ++ name ++ b) ∧
    ∀ (model query : String) (hist : Option String)
      (tools : Option (List ToolDefinition)) (llm : Nat → Response)
      (id : String),
      llm 0 = ⟨"tool_use", [ContentBlock.toolUse name id args]⟩ →
      (generateResponse model query hist tools
          (some (fun n a => reg.execute_tool n a)) llm).requests[1]? =
        some (mkRequest model (systemContent hist) tools
          [initialMessage query,
           ⟨"assistant", MessageContent.blocks
              [ContentBlock.toolUse name id args]⟩,
           ⟨"user", MessageContent.toolResults
              [⟨id, "Tool '" ++ name ++ "' not found"⟩]⟩]) := by
  have hfind : reg.tools.find? (fun p => p.1 == name) = none := by
    rw [List.find?_eq_none]
    intro p hp
    simpa using habsent p hp
  have herr : reg.execute_tool name args =
      "Tool '" ++ name ++ "' not found" := by
    rw [ToolManager.execute_tool, hfind]
  refine ⟨herr, ⟨"Tool '" ++ name ++ "' ", "", ?_⟩, ⟨"Tool '", "' not found", herr⟩, ?_⟩
  · rw [herr]
    simp only [String.append_assoc]
    rw [show ("' " ++ ("not found" ++ "") : String) = "' not found" from rfl]
  · intro model query hist tools llm id h0eq
    have hexec : executeToolCalls (fun n a => reg.execute_tool n a)
        (llm 0).content = [⟨id, "Tool '" ++ name ++ "' not found"⟩] := by
      rw [h0eq]
      simp [executeToolCalls, herr]
    have := gen_first_round_request model query hist tools
      (fun n a => reg.execute_tool n a) llm (by rw [h0eq]) (by rw [hexec]; simp)
    rw [this.1]
    rw [show assistantMessage (llm 0) =
        ⟨"assistant", MessageContent.blocks
          [ContentBlock.toolUse name id args]⟩ from by rw [h0eq, assistantMessage],
      show toolResultsMessage (fun n a => reg.execute_tool n a) (llm 0) =
        ⟨"user", MessageContent.toolResults
          [⟨id, "Tool '" ++ name ++ "' not found"⟩]⟩ from by
        rw [toolResultsMessage, hexec]]

/-- Witness for C8: dispatching the unregistered name "bad_tool" against
an empty registry yields "Tool 'bad_tool' not found", and that exact
string is the tool_result content in the second request. -/
theorem c8_unknown_tool_error_string_witness :
    emptyRegistry.execute_tool "bad_tool" [("query", "x")] =
      "Tool '" ++ "bad_tool" ++ "' not found" ∧
    (generateResponse "claude-test" "q" none none
        (some (fun n a => emptyRegistry.execute_tool n a)) c8Llm).requests[1]? =
      some (mkRequest "claude-test" (systemContent none) none
        [initialMessage "q",
         ⟨"assistant", MessageContent.blocks
            [ContentBlock.toolUse "bad_tool" "call_1" [("query", "x")]]⟩,
         ⟨"user", MessageContent.toolResults
            [⟨"call_1", "Tool '" ++ "bad_tool" ++ "' not found"⟩]⟩]) := by
  have h := c8_unknown_tool_error_string emptyRegistry "bad_tool"
    [("query", "x")] (fun p hp => absurd hp (List.not_mem_nil p))
  exact ⟨h.1, h.2.2.2 "claude-test" "q" none none c8Llm "call_1" rfl⟩

/-- Dispatching a block list whose earlier tool_use blocks all succeed
and whose next tool_use block raises: the attempts are exactly the
earlier calls plus the raising one, and the exception is the result. -/
theorem executeToolCallsExc_error {ε : Type} (tm : ExecuteToolExc ε)
    (name id : String) (inp : ToolInput) (e : ε)
    (herr : tm name inp = Except.error e) :
    ∀ (pre post : List ContentBlock),
      (∀ n i a, ContentBlock.toolUse n i a ∈ pre →
        ∃ s, tm n a = Except.ok s) →
      executeToolCallsExc tm
          (pre ++ ContentBlock.toolUse name id inp :: post) =
        (toolCallsOf pre ++ [(name, inp)], Except.error e) := by
  intro pre
  induction pre with
  | nil =>
    intro post _
    rw [List.nil_append, executeToolCallsExc, herr, toolCallsOf,
      List.nil_append]
  | cons b rest ih =>
    intro post hok
    cases b with
    | text s =>
      rw [List.cons_append, executeToolCallsExc, toolCallsOf]
      exact ih post fun n i a hmem =>
        hok n i a (List.mem_cons_of_mem _ hmem)
    | toolUse n i a =>
      obtain ⟨s, hs⟩ := hok n i a (List.mem_cons_self _ _)
      rw [List.cons_append, executeToolCallsExc, hs,
        ih post (fun n' i' a' hmem => hok n' i' a'
          (List.mem_cons_of_mem _ hmem)),
        toolCallsOf, List.cons_append]

/-- C10: If the dispatcher raises an exception for some tool_use block
of the first round (all earlier blocks succeeding), `generate_response`
performs no further dispatches — the later blocks of the round are never
dispatched — issues no further LLM request, and propagates that
exception to its caller: the loop catches no tool-dispatch errors. -/
theorem c10_dispatcher_exception_propagates {ε : Type}
    (model query : String) (hist : Option String)
    (tools : Option (List ToolDefinition)) (tm : ExecuteToolExc ε)
    (llm : Nat → Response) (pre post : List ContentBlock)
    (name id : String) (inp : ToolInput) (e : ε)
    (hcontent : (llm 0).content =
      pre ++ ContentBlock.toolUse name id inp :: post)
    (h0 : (llm 0).stop_reason = "tool_use")
    (hpre : ∀ n i a, ContentBlock.toolUse n i a ∈ pre →
      ∃ s, tm n a = Except.ok s)
    (herr : tm name inp = Except.error e) :
    generateResponseExc model query hist tools (some tm) llm =
      ⟨[mkRequest model (systemContent hist) tools
          [⟨"user", MessageContent.text query⟩]],
       toolCallsOf pre ++ [(name, inp)], 0, Except.error e⟩ := by
  have hexec : executeToolCallsExc tm (llm 0).content =
      (toolCallsOf pre ++ [(name, inp)], Except.error e) := by
    rw [hcontent]
    exact executeToolCallsExc_error tm name id inp e herr pre post hpre
  rw [generateResponseExc, max_tool_rounds_succ, toolLoopExc, hexec]
  simp [h0]

/-- Witness for C10: the exception raised on the second of three
tool_use blocks propagates; the third block is never dispatched and no
second LLM request is issued. -/
theorem c10_dispatcher_exception_propagates_witness :
    generateResponseExc "claude-test" "q" none none (some c10Tm) c10Llm =
      ⟨[mkRequest "claude-test" (systemContent none) none
          [⟨"user", MessageContent.text "q"⟩]],
       toolCallsOf [ContentBlock.toolUse "good_tool" "call_1" []] ++
         [("boom", [])], 0, Except.error "ConnectionError"⟩ :=
  c10_dispatcher_exception_propagates "claude-test" "q" none none c10Tm
    c10Llm [ContentBlock.toolUse "good_tool" "call_1" []]
    [ContentBlock.toolUse "never_run" "call_3" []] "boom" "call_2" []
    "ConnectionError" rfl rfl
    (fun n i a h => by
      rw [List.mem_singleton] at h
      injection h with h1 h2 h3
      subst h1
      subst h3
      exact ⟨"ok result", rfl⟩)
    rfl

end RagChatbot
